import Mathlib

/-!
# Verification of the MEGA65 image converter scripts

Shallow embedding of the two Python scripts `IC65_128_2.py` and
`IC65_128_3.py` (the latter is the "loader variant").  Pure pieces of the
scripts (the 4-bit channel quantizer, the color-count parser, the filename
derivation, the loop-continuation test) are translated into executable Lean
functions; the orchestration of external tools is modelled as a function
from an environment recording each external tool's exit status, diagnostic
text and produced files to a trace of executed pipeline steps, reported
error messages and a run outcome.

Machine arithmetic note: the script computes `int((value / 255) * 15) * 17`
with Python floats.  For every `value` in `0..255` the IEEE-double
computation `int((value / 255) * 15)` coincides with the exact integer
quotient `value * 15 / 255`, so the embedding below uses exact natural
division.
-/

namespace IC65

/-! ## The pixel depth reducer -/

/-- A pixel: red, green and blue channel values (bytes `0..255`). -/
abbrev Pixel := Nat × Nat × Nat

/-- Function `to_4bit` from the scripts: `int((value / 255) * 15) * 17`, embedded with
exact natural-number division (faithful to the float computation on the byte
range, see module docstring). -/
def to_4bit (value : Nat) : Nat :=
  value * 15 / 255 * 17

/-- Channel-wise application of `to_4bit` to one pixel, as in the loop body
`pixels[x, y] = (to_4bit(r), to_4bit(g), to_4bit(b))`. -/
def reducePixel : Pixel → Pixel
  | (r, g, b) => (to_4bit r, to_4bit g, to_4bit b)

/-- Function `reduce_to_4bit_color` from the scripts: every pixel of the image has
`to_4bit` applied to each channel.  The image is a row-major list of rows. -/
def reduce_to_4bit_color (img : List (List Pixel)) : List (List Pixel) :=
  img.map (fun row => row.map reducePixel)

/-- The spec's formula for the per-channel transform:
`floor(value / 255 * 15) * 17`, with a genuine rational floor. -/
def floor4bit (v : Nat) : Nat :=
  ⌊(v : ℚ) / 255 * 15⌋₊ * 17

/-- The spec-side pixel transform built from `floor4bit`. -/
def floorPixel : Pixel → Pixel
  | (r, g, b) => (floor4bit r, floor4bit g, floor4bit b)

/-! ## The color count parser

`run_conversion` inspects the `ppmtoilbm` diagnostic text with

    if "colors found" in result.stderr:
        color_count = int(result.stderr.split("colors found")[0].split()[-1])

We embed strings as `List Char`.  `Python`'s `pat in s` / `s.split(pat)[0]`
are modelled by the least-index substring search `findFirst?`; `.split()` by
`pySplitWs`; `int(...)` by `pyInt?` (optional surrounding whitespace,
optional sign, decimal digits with single underscores allowed between
digits, `none` when the text is not a valid integer literal). -/

/-- The characters Python's `str.split()` / `str.strip()` treat as
whitespace (ASCII fragment). -/
def pyWhitespace (c : Char) : Bool :=
  c = ' ' ∨ c = '\t' ∨ c = '\n' ∨ c = '\r' ∨ c = '\x0b' ∨ c = '\x0c'

/-- Accumulator pass of Python's `str.split()` (split on whitespace runs,
no empty tokens). -/
def pySplitWsAux : List Char → List Char → List (List Char)
  | [], acc => if acc = [] then [] else [acc.reverse]
  | c :: cs, acc =>
    if pyWhitespace c then
      if acc = [] then pySplitWsAux cs []
      else acc.reverse :: pySplitWsAux cs []
    else pySplitWsAux cs (c :: acc)

/-- Python's `str.split()` with no separator argument. -/
def pySplitWs (s : List Char) : List (List Char) :=
  pySplitWsAux s []

/-- Python's `str.strip()` with no argument (ASCII whitespace fragment). -/
def pyStripWs (s : List Char) : List Char :=
  ((s.dropWhile pyWhitespace).reverse.dropWhile pyWhitespace).reverse

/-- Whether `pat` occurs in `s` starting at index `i`. -/
def occursAt (pat s : List Char) (i : Nat) : Bool :=
  pat.isPrefixOf (s.drop i)

/-- Least index at which `pat` occurs in `s` (`Python`'s `s.find(pat)` /
the occurrence used by `pat in s` and `s.split(pat)`). -/
def findFirst? (pat : List Char) : List Char → Option Nat
  | [] => if pat.isPrefixOf ([] : List Char) then some 0 else none
  | c :: cs =>
    if pat.isPrefixOf (c :: cs) then some 0
    else (findFirst? pat cs).map (· + 1)

/-- Numeric value of a decimal digit character. -/
def digitVal (c : Char) : Nat := c.toNat - 48

/-- Continuation of `pyDigits?`: digits already read have value `acc`; a
single underscore is allowed between two digits (Python 3 int literals). -/
def pyDigitsGo (acc : Nat) : List Char → Option Nat
  | [] => some acc
  | '_' :: c :: cs =>
    if c.isDigit then pyDigitsGo (acc * 10 + digitVal c) cs else none
  | ['_'] => none
  | c :: cs =>
    if c.isDigit then pyDigitsGo (acc * 10 + digitVal c) cs else none

/-- Digit-string parser: nonempty decimal digits with single underscores
allowed between digits. -/
def pyDigits? : List Char → Option Nat
  | [] => none
  | c :: cs => if c.isDigit then pyDigitsGo (digitVal c) cs else none

/-- Python's `int(str)` on a whitespace-split token: strips surrounding
whitespace, allows one optional sign, then a digit string.  `none` models a
`ValueError`. -/
def pyInt? (tok : List Char) : Option Int :=
  match pyStripWs tok with
  | '+' :: rest => (pyDigits? rest).map (fun n => (n : Int))
  | '-' :: rest => (pyDigits? rest).map (fun n => -(n : Int))
  | t => (pyDigits? t).map (fun n => (n : Int))

/-- The fixed marker substring the scripts search for in the `ppmtoilbm`
diagnostic text. -/
def markerChars : List Char := "colors found".toList

/-- Result of the color-count extraction at lines
`if "colors found" in result.stderr: color_count = int(...)`. -/
inductive ParseOutcome
  | noMarker
  | raised
  | count (n : Int)
deriving DecidableEq

/-- The color count parser: if the marker is absent the scripts skip the
whole analysis (`noMarker`); otherwise the text before the first marker
occurrence is whitespace-split and the last token is parsed with `int`.
`raised` models the uncaught `IndexError` (no token) or `ValueError`
(unparseable token). -/
def parseColorCount (s : List Char) : ParseOutcome :=
  match findFirst? markerChars s with
  | none => .noMarker
  | some i =>
    match (pySplitWs (s.take i)).getLast? with
    | none => .raised
    | some tok =>
      match pyInt? tok with
      | none => .raised
      | some n => .count n

/-! ## The pipeline orchestration

`run_conversion` shells out to `convert`, `ppmtoilbm` (possibly twice),
`cc1541` (twice in the loader variant) and `petcat` (loader variant), and
checks for the existence of expected output files.  The external world is
abstracted into an `Env` of exit statuses, diagnostic text and
file-existence answers; a run is summarised by the list of pipeline steps
it executed, the error messages it printed, and how control left the
function. -/

/-- Results of the external tools and filesystem checks, fixed before a
run. -/
structure Env where
  convertExit : Nat
  ppmExists : Bool
  ilbmExit : Nat
  ilbmStderr : List Char
  ilbm2Exit : Nat
  iffExists : Bool
  cc1541Exit : Nat
  d81Exists : Bool
  petcatExit : Nat
  cc1541AddExit : Nat
deriving DecidableEq

/-- Pipeline steps (external tool invocations, the in-process pixel
reduction, and the loader-source write). -/
inductive Step
  | convert
  | ppmtoilbm
  | reduce
  | ppmtoilbm2
  | cc1541
  | writeBas
  | petcat
  | cc1541Add
deriving DecidableEq

/-- The distinct error messages the scripts can print. -/
inductive Msg
  | convertError
  | ppmMissing
  | ilbmError
  | ilbm2Error
  | iffMissing
  | cc1541Error
  | d81Missing
  | loaderAddError
deriving DecidableEq

/-- How control leaves `run_conversion`: fell off the end, returned early
after reporting a failure, or propagated an uncaught exception. -/
inductive Outcome
  | completed
  | aborted
  | crashed
deriving DecidableEq

/-- Summary of one `run_conversion` call. -/
structure RunResult where
  steps : List Step
  msgs : List Msg
  outcome : Outcome
deriving DecidableEq

/-- Tail of the first script's pipeline after the IFF stage: the IFF
existence check, the `cc1541` call, and the final D81 existence check
(which only prints; the function then ends either way). -/
def tailSteps2 (pre : List Step) (env : Env) : RunResult :=
  if env.iffExists then
    if env.cc1541Exit = 0 then
      if env.d81Exists then ⟨pre ++ [.cc1541], [], .completed⟩
      else ⟨pre ++ [.cc1541], [.d81Missing], .completed⟩
    else ⟨pre ++ [.cc1541], [.cc1541Error], .aborted⟩
  else ⟨pre, [.iffMissing], .aborted⟩

/-- Function `run_conversion` of `IC65_128_2.py`. -/
def run_conversion2 (env : Env) : RunResult :=
  if env.convertExit = 0 then
    if env.ppmExists then
      if env.ilbmExit = 0 then
        match parseColorCount env.ilbmStderr with
        | .noMarker => tailSteps2 [.convert, .ppmtoilbm] env
        | .raised => ⟨[.convert, .ppmtoilbm], [], .crashed⟩
        | .count n =>
          if 128 ≤ n then
            if env.ilbm2Exit = 0 then
              tailSteps2 [.convert, .ppmtoilbm, .reduce, .ppmtoilbm2] env
            else ⟨[.convert, .ppmtoilbm, .reduce, .ppmtoilbm2],
                  [.ilbm2Error], .aborted⟩
          else tailSteps2 [.convert, .ppmtoilbm] env
      else ⟨[.convert, .ppmtoilbm], [.ilbmError], .aborted⟩
    else ⟨[.convert], [.ppmMissing], .aborted⟩
  else ⟨[.convert], [.convertError], .aborted⟩

/-- Tail of the loader variant's pipeline after the IFF stage: the IFF
existence check, `cc1541`, the D81 existence check (which only prints and
does NOT return), then loader generation: write the `.bas` file, run
`petcat`, and add the `.prg` with a second `cc1541` call.  A
`CalledProcessError` from `petcat` or the second `cc1541` is caught, an
error is printed, and the function ends normally. -/
def tailSteps3 (pre : List Step) (env : Env) : RunResult :=
  if env.iffExists then
    if env.cc1541Exit = 0 then
      if env.petcatExit = 0 then
        if env.cc1541AddExit = 0 then
          ⟨pre ++ [.cc1541, .writeBas, .petcat, .cc1541Add],
           if env.d81Exists then [] else [.d81Missing], .completed⟩
        else
          ⟨pre ++ [.cc1541, .writeBas, .petcat, .cc1541Add],
           (if env.d81Exists then [] else [.d81Missing]) ++ [.loaderAddError],
           .completed⟩
      else
        ⟨pre ++ [.cc1541, .writeBas, .petcat],
         (if env.d81Exists then [] else [.d81Missing]) ++ [.loaderAddError],
         .completed⟩
    else ⟨pre ++ [.cc1541], [.cc1541Error], .aborted⟩
  else ⟨pre, [.iffMissing], .aborted⟩

/-- Function `run_conversion` of `IC65_128_3.py` (the loader variant). -/
def run_conversion3 (env : Env) : RunResult :=
  if env.convertExit = 0 then
    if env.ppmExists then
      if env.ilbmExit = 0 then
        match parseColorCount env.ilbmStderr with
        | .noMarker => tailSteps3 [.convert, .ppmtoilbm] env
        | .raised => ⟨[.convert, .ppmtoilbm], [], .crashed⟩
        | .count n =>
          if 128 ≤ n then
            if env.ilbm2Exit = 0 then
              tailSteps3 [.convert, .ppmtoilbm, .reduce, .ppmtoilbm2] env
            else ⟨[.convert, .ppmtoilbm, .reduce, .ppmtoilbm2],
                  [.ilbm2Error], .aborted⟩
          else tailSteps3 [.convert, .ppmtoilbm] env
      else ⟨[.convert, .ppmtoilbm], [.ilbmError], .aborted⟩
    else ⟨[.convert], [.ppmMissing], .aborted⟩
  else ⟨[.convert], [.convertError], .aborted⟩

/-! ## The interactive session loop -/

/-- ASCII lowercasing of one character (Python `str.lower()` on the inputs
at hand). -/
def pyLowerChar (c : Char) : Char :=
  if 'A' ≤ c ∧ c ≤ 'Z' then Char.ofNat (c.toNat + 32) else c

/-- Python's `str.lower()` (ASCII fragment). -/
def pyLower (s : List Char) : List Char :=
  s.map pyLowerChar

/-- The loop guard: `input(...).strip().lower() != 'y'` breaks, so the loop
runs again exactly when the stripped, lowercased reply is `"y"`. -/
def loopContinues (reply : List Char) : Bool :=
  pyLower (pyStripWs reply) = ['y']

/-- How the whole program ends. -/
inductive SessionEnd
  | userQuit
  | crashed
deriving DecidableEq

/-- The session loop (`while True`), driven by a scripted list of
(environment, continue-reply) pairs: each iteration calls `run` once; an
uncaught exception inside `run_conversion` kills the whole program
(`crashed`), otherwise the reply decides whether another iteration runs.
Returns the number of iterations executed and how the program ended. -/
def sessionLoop (run : Env → RunResult) : List (Env × List Char) → Nat × SessionEnd
  | [] => (0, .userQuit)
  | (env, reply) :: rest =>
    if (run env).outcome = Outcome.crashed then (1, .crashed)
    else if loopContinues reply then
      ((sessionLoop run rest).1 + 1, (sessionLoop run rest).2)
    else (1, .userQuit)

/-! ## The filename deriver

`base_name = os.path.splitext(input_image)[0]`, then fixed extensions are
appended.  `pySplitextBase` is `posixpath.splitext`'s first component: the
extension starts at the last dot, provided it lies after the last path
separator and the basename does not consist solely of leading dots. -/

/-- Index of the last occurrence of `c` in `s`. -/
def lastIndexOf (c : Char) : List Char → Option Nat
  | [] => none
  | a :: as =>
    match lastIndexOf c as with
    | some i => some (i + 1)
    | none => if a = c then some 0 else none

/-- First component of `os.path.splitext` (POSIX rules). -/
def pySplitextBase (p : List Char) : List Char :=
  let start := match lastIndexOf '/' p with
               | none => 0
               | some i => i + 1
  match lastIndexOf '.' p with
  | none => p
  | some d =>
    if start ≤ d ∧ ((p.drop start).take (d - start)).any (fun c => c ≠ '.') then
      p.take d
    else p

/-- An environment in which every external tool succeeds and every expected
file exists, with the given `ppmtoilbm` diagnostic text. -/
def envOk (stderr : List Char) : Env :=
  ⟨0, true, 0, stderr, 0, true, 0, true, 0, 0⟩

/-- Derived name `output_ppm`, from `base_name` plus `.ppm`. -/
def output_ppm (input : List Char) : List Char :=
  pySplitextBase input ++ ".ppm".toList

/-- Derived name `output_iff`, from `base_name` plus `.iff`. -/
def output_iff (input : List Char) : List Char :=
  pySplitextBase input ++ ".iff".toList

/-- Derived name `loader_bas` (loader variant), from `base_name` plus `.bas`. -/
def loader_bas (input : List Char) : List Char :=
  pySplitextBase input ++ ".bas".toList

/-- Derived name `loader_prg` (loader variant), from `base_name` plus `.prg`. -/
def loader_prg (input : List Char) : List Char :=
  pySplitextBase input ++ ".prg".toList

end IC65

open IC65

/-! ## Helper lemmas -/

lemma floor4bit_eq_to_4bit (v : Nat) : floor4bit v = to_4bit v := by
  unfold floor4bit to_4bit
  have h : (v : ℚ) / 255 * 15 = ((v * 15 : ℕ) : ℚ) / ((255 : ℕ) : ℚ) := by
    push_cast
    ring
  rw [h, Nat.floor_div_nat, Nat.floor_natCast]

lemma reducePixel_eq_floorPixel (p : Pixel) : reducePixel p = floorPixel p := by
  rcases p with ⟨r, g, b⟩
  simp [reducePixel, floorPixel, floor4bit_eq_to_4bit]

lemma to_4bit_idem (v : Nat) : to_4bit (to_4bit v) = to_4bit v := by
  unfold to_4bit
  have h : v * 15 / 255 * 17 * 15 = v * 15 / 255 * 255 := by ring
  rw [h, Nat.mul_div_cancel _ (by norm_num)]

/-! ## Claim C1 -/

/-- C1: For every input raster image with byte channel values, the pixel
depth reducer `reduce_to_4bit_color` returns an image of identical dimensions
(same number of rows, each row of the same length) in which every pixel's
red, green and blue channel value `v` has been replaced by
`floor(v / 255 * 15) * 17` (rational floor, i.e. truncation), with no pixel
left untransformed. -/
theorem c1_reduce_to_4bit_color_correct (img : List (List Pixel))
    (hb : ∀ row ∈ img, ∀ p ∈ row, p.1 ≤ 255 ∧ p.2.1 ≤ 255 ∧ p.2.2 ≤ 255) :
    (reduce_to_4bit_color img).length = img.length ∧
    (∀ y row, img.get? y = some row → ∃ row',
        (reduce_to_4bit_color img).get? y = some row' ∧
        row'.length = row.length ∧
        ∀ x p, row.get? x = some p →
          row'.get? x = some (floor4bit p.1, floor4bit p.2.1, floor4bit p.2.2)) := by
  clear hb
  constructor
  · simp [reduce_to_4bit_color]
  · intro y row hy
    refine ⟨row.map reducePixel, ?_, by simp, ?_⟩
    · rw [List.get?_eq_getElem?] at hy ⊢
      simp [reduce_to_4bit_color, List.getElem?_map, hy]
    · intro x p hx
      have hfp : reducePixel p = (floor4bit p.1, floor4bit p.2.1, floor4bit p.2.2) := by
        rcases p with ⟨r, g, b⟩
        simp [reducePixel_eq_floorPixel, floorPixel]
      rw [List.get?_eq_getElem?] at hx ⊢
      simp [List.getElem?_map, hx, hfp]

/-- Witness for C1 at a concrete one-pixel image. -/
theorem c1_witness :
    (∀ row ∈ [[((0, 128, 255) : Pixel)]], ∀ p ∈ row,
        p.1 ≤ 255 ∧ p.2.1 ≤ 255 ∧ p.2.2 ≤ 255) ∧
    ((reduce_to_4bit_color [[((0, 128, 255) : Pixel)]]).length =
        ([[((0, 128, 255) : Pixel)]] : List (List Pixel)).length ∧
    (∀ y row, ([[((0, 128, 255) : Pixel)]] : List (List Pixel)).get? y = some row →
        ∃ row',
        (reduce_to_4bit_color [[((0, 128, 255) : Pixel)]]).get? y = some row' ∧
        row'.length = row.length ∧
        ∀ x p, row.get? x = some p →
          row'.get? x = some (floor4bit p.1, floor4bit p.2.1, floor4bit p.2.2))) :=
  ⟨by decide, c1_reduce_to_4bit_color_correct [[((0, 128, 255) : Pixel)]] (by decide)⟩

/-! ## Claim C2 -/

/-- C2: For every channel value `v` in `[0,255]`, `to_4bit v` lies in the
16-element set `{17 * k | k ≤ 15} = {0, 17, 34, ..., 255}`, and `to_4bit` is
monotone non-decreasing on `[0,255]`. -/
theorem c2_to_4bit_range_and_monotone :
    (∀ v, v ≤ 255 → ∃ k, k ≤ 15 ∧ to_4bit v = 17 * k) ∧
    (∀ v w, v ≤ w → w ≤ 255 → to_4bit v ≤ to_4bit w) := by
  constructor
  · intro v hv
    refine ⟨v * 15 / 255, ?_, ?_⟩
    · have h1 : v * 15 ≤ 3825 := by omega
      have h2 : v * 15 / 255 ≤ 3825 / 255 := Nat.div_le_div_right h1
      simpa using h2
    · unfold to_4bit
      ring
  · intro v w hvw _
    unfold to_4bit
    have h1 : v * 15 ≤ w * 15 := by omega
    have h2 : v * 15 / 255 ≤ w * 15 / 255 := Nat.div_le_div_right h1
    exact Nat.mul_le_mul_right 17 h2

/-- Witness for C2 at concrete channel values. -/
theorem c2_witness :
    (∃ k, k ≤ 15 ∧ to_4bit 200 = 17 * k) ∧ to_4bit 3 ≤ to_4bit 200 :=
  ⟨c2_to_4bit_range_and_monotone.1 200 (by decide),
   c2_to_4bit_range_and_monotone.2 3 200 (by decide) (by decide)⟩

/-! ## Claim C3 -/

/-- C3: Depth reduction is idempotent: `to_4bit (to_4bit v) = to_4bit v`
for every channel value in `[0,255]`; `to_4bit` fixes each of the 16 levels
`17 * k`, `k ≤ 15`; and applying `reduce_to_4bit_color` twice to an image
with byte channels yields the same image as applying it once. -/
theorem c3_reduction_idempotent :
    (∀ v, v ≤ 255 → to_4bit (to_4bit v) = to_4bit v) ∧
    (∀ k, k ≤ 15 → to_4bit (17 * k) = 17 * k) ∧
    (∀ img : List (List Pixel),
        (∀ row ∈ img, ∀ p ∈ row, p.1 ≤ 255 ∧ p.2.1 ≤ 255 ∧ p.2.2 ≤ 255) →
        reduce_to_4bit_color (reduce_to_4bit_color img) = reduce_to_4bit_color img) := by
  refine ⟨fun v _ => to_4bit_idem v, ?_, ?_⟩
  · intro k _
    unfold to_4bit
    have h : 17 * k * 15 = k * 255 := by ring
    rw [h, Nat.mul_div_cancel _ (by norm_num)]
    ring
  · intro img _
    unfold reduce_to_4bit_color
    rw [List.map_map]
    refine List.map_congr_left ?_
    intro row _
    simp only [Function.comp]
    rw [List.map_map]
    refine List.map_congr_left ?_
    intro p _
    rcases p with ⟨r, g, b⟩
    simp [Function.comp, reducePixel, to_4bit_idem]

/-- Witness for C3 at concrete inputs. -/
theorem c3_witness :
    to_4bit (to_4bit 200) = to_4bit 200 ∧
    to_4bit (17 * 7) = 17 * 7 ∧
    reduce_to_4bit_color (reduce_to_4bit_color [[((1, 99, 254) : Pixel)]]) =
      reduce_to_4bit_color [[((1, 99, 254) : Pixel)]] :=
  ⟨c3_reduction_idempotent.1 200 (by decide),
   c3_reduction_idempotent.2.1 7 (by decide),
   c3_reduction_idempotent.2.2 [[((1, 99, 254) : Pixel)]] (by decide)⟩

/-! ## Claim C4 -/

lemma mem_tailSteps2_iff (st : Step) (h : st ≠ Step.cc1541)
    (pre : List Step) (env : Env) :
    st ∈ (tailSteps2 pre env).steps ↔ st ∈ pre := by
  unfold tailSteps2
  split_ifs <;> simp [h]

lemma mem_tailSteps3_iff (st : Step) (h1 : st ≠ Step.cc1541)
    (h2 : st ≠ Step.writeBas) (h3 : st ≠ Step.petcat)
    (h4 : st ≠ Step.cc1541Add) (pre : List Step) (env : Env) :
    st ∈ (tailSteps3 pre env).steps ↔ st ∈ pre := by
  unfold tailSteps3
  split_ifs <;> simp [h1, h2, h3, h4]

/-- C4: Given that the earlier steps succeeded (ImageMagick exit 0, PPM
file present, first `ppmtoilbm` exit 0), the pixel depth reduction — and with
it the second IFF conversion — runs exactly when the parsed color count is a
value `n` with `n ≥ 128`; when the count is below 128 or no count is found,
neither the reduction nor a second IFF conversion runs, so the intermediate
image file is passed through unmodified.  This holds in both script
variants. -/
theorem c4_reduction_applied_iff_count_ge_128 (env : Env)
    (hc : env.convertExit = 0) (hp : env.ppmExists = true)
    (hi : env.ilbmExit = 0) :
    ((Step.reduce ∈ (run_conversion2 env).steps ↔
        ∃ n, parseColorCount env.ilbmStderr = .count n ∧ 128 ≤ n) ∧
     (Step.ppmtoilbm2 ∈ (run_conversion2 env).steps ↔
        ∃ n, parseColorCount env.ilbmStderr = .count n ∧ 128 ≤ n)) ∧
    ((Step.reduce ∈ (run_conversion3 env).steps ↔
        ∃ n, parseColorCount env.ilbmStderr = .count n ∧ 128 ≤ n) ∧
     (Step.ppmtoilbm2 ∈ (run_conversion3 env).steps ↔
        ∃ n, parseColorCount env.ilbmStderr = .count n ∧ 128 ≤ n)) := by
  unfold run_conversion2 run_conversion3
  rw [hc, hp, hi]
  simp only [if_true, reduceIte]
  rcases hpc : parseColorCount env.ilbmStderr with _ | _ | n <;>
    simp only [hpc]
  · constructor <;> constructor <;>
      [rw [mem_tailSteps2_iff _ (by decide)];
       rw [mem_tailSteps2_iff _ (by decide)];
       rw [mem_tailSteps3_iff _ (by decide) (by decide) (by decide) (by decide)];
       rw [mem_tailSteps3_iff _ (by decide) (by decide) (by decide) (by decide)]] <;>
      simp
  · simp
  · by_cases h128 : 128 ≤ n
    · simp only [h128, if_true, reduceIte]
      by_cases h2 : env.ilbm2Exit = 0
      · simp only [h2, if_true, reduceIte]
        constructor <;> constructor <;>
          [rw [mem_tailSteps2_iff _ (by decide)];
           rw [mem_tailSteps2_iff _ (by decide)];
           rw [mem_tailSteps3_iff _ (by decide) (by decide) (by decide) (by decide)];
           rw [mem_tailSteps3_iff _ (by decide) (by decide) (by decide) (by decide)]] <;>
          simp [h128]
      · simp only [h2, if_false, reduceIte]
        simp [h128]
    · simp only [h128, if_false, reduceIte]
      constructor <;> constructor <;>
        [rw [mem_tailSteps2_iff _ (by decide)];
         rw [mem_tailSteps2_iff _ (by decide)];
         rw [mem_tailSteps3_iff _ (by decide) (by decide) (by decide) (by decide)];
         rw [mem_tailSteps3_iff _ (by decide) (by decide) (by decide) (by decide)]] <;>
        simp <;> omega

/-- Witness for C4: with diagnostic text `"200 colors found"` and all tools
succeeding, the reduction-condition equivalence holds concretely. -/
theorem c4_witness :
    Step.reduce ∈ (run_conversion2 (envOk "200 colors found".toList)).steps ↔
      ∃ n, parseColorCount (envOk "200 colors found".toList).ilbmStderr =
            .count n ∧ 128 ≤ n :=
  ((c4_reduction_applied_iff_count_ge_128
      (envOk "200 colors found".toList) rfl rfl rfl).1).1

/-! ## Parser lemmas -/

lemma findFirst?_eq_none_of_forall (pat s : List Char)
    (h : ∀ j, occursAt pat s j = false) : findFirst? pat s = none := by
  induction s with
  | nil =>
      have h0 := h 0
      unfold occursAt at h0
      simp only [List.drop_zero] at h0
      unfold findFirst?
      rw [h0]
      rfl
  | cons c cs ih =>
      have h0 := h 0
      unfold occursAt at h0
      simp only [List.drop_zero] at h0
      unfold findFirst?
      rw [h0]
      simp only [Bool.false_eq_true, if_false]
      rw [ih]
      · rfl
      · intro j
        have hj := h (j + 1)
        unfold occursAt at hj ⊢
        simpa using hj

lemma findFirst?_eq_some_of (pat : List Char) :
    ∀ (s : List Char) (i : Nat), occursAt pat s i = true →
      (∀ j, j < i → occursAt pat s j = false) → findFirst? pat s = some i := by
  intro s
  induction s with
  | nil =>
      intro i hocc hmin
      unfold occursAt at hocc
      rw [List.drop_nil] at hocc
      cases i with
      | zero =>
          unfold findFirst?
          rw [hocc]
          simp
      | succ j =>
          exfalso
          have h0 := hmin 0 (Nat.succ_pos j)
          unfold occursAt at h0
          rw [List.drop_nil] at h0
          rw [h0] at hocc
          exact Bool.false_ne_true hocc
  | cons c cs ih =>
      intro i hocc hmin
      cases i with
      | zero =>
          unfold occursAt at hocc
          simp only [List.drop_zero] at hocc
          unfold findFirst?
          rw [hocc]
          simp
      | succ j =>
          have h0 := hmin 0 (Nat.succ_pos j)
          unfold occursAt at h0
          simp only [List.drop_zero] at h0
          unfold findFirst?
          rw [h0]
          simp only [Bool.false_eq_true, if_false]
          have hocc' : occursAt pat cs j = true := by
            unfold occursAt at hocc ⊢
            simpa using hocc
          have hmin' : ∀ k, k < j → occursAt pat cs k = false := by
            intro k hk
            have := hmin (k + 1) (by omega)
            unfold occursAt at this ⊢
            simpa using this
          rw [ih j hocc' hmin']
          rfl

lemma occursAt_of_ge_length (s : List Char) (j : Nat)
    (h : s.length ≤ j) : occursAt markerChars s j = false := by
  unfold occursAt
  rw [List.drop_eq_nil_of_le h]
  decide

lemma tailSteps2_not_crashed (pre : List Step) (env : Env) :
    (tailSteps2 pre env).outcome ≠ Outcome.crashed := by
  unfold tailSteps2
  split_ifs <;> simp

lemma tailSteps3_not_crashed (pre : List Step) (env : Env) :
    (tailSteps3 pre env).outcome ≠ Outcome.crashed := by
  unfold tailSteps3
  split_ifs <;> simp

lemma isPrefixOf_append_self (xs b : List Char) :
    xs.isPrefixOf (xs ++ b) = true := by
  induction xs with
  | nil => simp [List.isPrefixOf]
  | cons x xs ih => simp [List.isPrefixOf, ih]

/-! ## Claim C5 -/

/-- C5: The color count parser: if the fixed marker `"colors found"`
occurs nowhere in the diagnostic text, no count is propagated (`noMarker`),
no exception is raised, and — given the earlier steps succeeded — the
pipeline skips the depth reduction.  If the text is `a ++ "colors found" ++ b`
with no earlier marker occurrence, the parser takes the whitespace-separated
token immediately preceding the marker and parses it as an integer (an
absent or unparseable token raises). -/
theorem c5_color_count_extraction (s a b : List Char) :
    ((∀ j, j ≤ s.length → occursAt markerChars s j = false) →
       parseColorCount s = .noMarker ∧
       (∀ env : Env, env.ilbmStderr = s → env.convertExit = 0 →
         env.ppmExists = true → env.ilbmExit = 0 →
         Step.reduce ∉ (run_conversion2 env).steps ∧
         (run_conversion2 env).outcome ≠ .crashed)) ∧
    (s = a ++ markerChars ++ b →
     (∀ j, j < a.length → occursAt markerChars s j = false) →
       parseColorCount s =
         match (pySplitWs a).getLast? with
         | none => .raised
         | some tok =>
           match pyInt? tok with
           | none => .raised
           | some n => .count n) := by
  constructor
  · intro h
    have hall : ∀ j, occursAt markerChars s j = false := by
      intro j
      by_cases hj : j ≤ s.length
      · exact h j hj
      · exact occursAt_of_ge_length s j (by omega)
    have hnone : findFirst? markerChars s = none :=
      findFirst?_eq_none_of_forall _ _ hall
    have hparse : parseColorCount s = .noMarker := by
      unfold parseColorCount
      rw [hnone]
    refine ⟨hparse, ?_⟩
    intro env henv hc hp hi
    unfold run_conversion2
    rw [hc, hp, hi, henv, hparse]
    simp only [if_true, reduceIte]
    constructor
    · rw [mem_tailSteps2_iff _ (by decide)]
      simp
    · exact tailSteps2_not_crashed _ _
  · intro hs hmin
    have hocc : occursAt markerChars s a.length = true := by
      unfold occursAt
      rw [hs, List.append_assoc, List.drop_left]
      exact isPrefixOf_append_self markerChars b
    have hfind : findFirst? markerChars s = some a.length :=
      findFirst?_eq_some_of _ _ _ hocc hmin
    have htake : s.take a.length = a := by
      rw [hs, List.append_assoc, List.take_left]
    unfold parseColorCount
    simp only [hfind]
    rw [htake]

/-- Witness for C5: the parser extracts 142 from a text containing
`"142 colors found"`, and yields no count on marker-free text. -/
theorem c5_witness :
    parseColorCount "ppmtoilbm: 142 colors found".toList = .count 142 ∧
    parseColorCount "no marker here".toList = .noMarker := by
  constructor
  · have h := (c5_color_count_extraction "ppmtoilbm: 142 colors found".toList
        "ppmtoilbm: 142 ".toList "".toList).2 (by decide) (by decide)
    rw [h]
    decide
  · exact ((c5_color_count_extraction "no marker here".toList [] []).1
      (by decide)).1

/-! ## Pipeline characterization lemmas -/

lemma run_conversion2_convert_fail (env : Env) (h : env.convertExit ≠ 0) :
    run_conversion2 env = ⟨[.convert], [.convertError], .aborted⟩ := by
  unfold run_conversion2
  rw [if_neg h]

lemma run_conversion3_convert_fail (env : Env) (h : env.convertExit ≠ 0) :
    run_conversion3 env = ⟨[.convert], [.convertError], .aborted⟩ := by
  unfold run_conversion3
  rw [if_neg h]

lemma run_conversion2_ppm_missing (env : Env) (h1 : env.convertExit = 0)
    (h2 : env.ppmExists = false) :
    run_conversion2 env = ⟨[.convert], [.ppmMissing], .aborted⟩ := by
  unfold run_conversion2
  rw [h1, h2]
  simp

lemma run_conversion3_ppm_missing (env : Env) (h1 : env.convertExit = 0)
    (h2 : env.ppmExists = false) :
    run_conversion3 env = ⟨[.convert], [.ppmMissing], .aborted⟩ := by
  unfold run_conversion3
  rw [h1, h2]
  simp

lemma run_conversion2_ilbm_fail (env : Env) (h1 : env.convertExit = 0)
    (h2 : env.ppmExists = true) (h3 : env.ilbmExit ≠ 0) :
    run_conversion2 env = ⟨[.convert, .ppmtoilbm], [.ilbmError], .aborted⟩ := by
  unfold run_conversion2
  rw [h1, h2, if_neg h3]
  simp

lemma run_conversion3_ilbm_fail (env : Env) (h1 : env.convertExit = 0)
    (h2 : env.ppmExists = true) (h3 : env.ilbmExit ≠ 0) :
    run_conversion3 env = ⟨[.convert, .ppmtoilbm], [.ilbmError], .aborted⟩ := by
  unfold run_conversion3
  rw [h1, h2, if_neg h3]
  simp

lemma run_conversion2_parse_noMarker (env : Env) (h1 : env.convertExit = 0)
    (h2 : env.ppmExists = true) (h3 : env.ilbmExit = 0)
    (hpc : parseColorCount env.ilbmStderr = .noMarker) :
    run_conversion2 env = tailSteps2 [.convert, .ppmtoilbm] env := by
  unfold run_conversion2
  rw [h1, h2, h3, hpc]
  simp

lemma run_conversion3_parse_noMarker (env : Env) (h1 : env.convertExit = 0)
    (h2 : env.ppmExists = true) (h3 : env.ilbmExit = 0)
    (hpc : parseColorCount env.ilbmStderr = .noMarker) :
    run_conversion3 env = tailSteps3 [.convert, .ppmtoilbm] env := by
  unfold run_conversion3
  rw [h1, h2, h3, hpc]
  simp

lemma run_conversion2_parse_raised (env : Env) (h1 : env.convertExit = 0)
    (h2 : env.ppmExists = true) (h3 : env.ilbmExit = 0)
    (hpc : parseColorCount env.ilbmStderr = .raised) :
    run_conversion2 env = ⟨[.convert, .ppmtoilbm], [], .crashed⟩ := by
  unfold run_conversion2
  rw [h1, h2, h3, hpc]
  simp

lemma run_conversion3_parse_raised (env : Env) (h1 : env.convertExit = 0)
    (h2 : env.ppmExists = true) (h3 : env.ilbmExit = 0)
    (hpc : parseColorCount env.ilbmStderr = .raised) :
    run_conversion3 env = ⟨[.convert, .ppmtoilbm], [], .crashed⟩ := by
  unfold run_conversion3
  rw [h1, h2, h3, hpc]
  simp

lemma run_conversion2_parse_count (env : Env) (n : Int)
    (h1 : env.convertExit = 0) (h2 : env.ppmExists = true)
    (h3 : env.ilbmExit = 0)
    (hpc : parseColorCount env.ilbmStderr = .count n) :
    run_conversion2 env =
      if 128 ≤ n then
        if env.ilbm2Exit = 0 then
          tailSteps2 [.convert, .ppmtoilbm, .reduce, .ppmtoilbm2] env
        else ⟨[.convert, .ppmtoilbm, .reduce, .ppmtoilbm2], [.ilbm2Error], .aborted⟩
      else tailSteps2 [.convert, .ppmtoilbm] env := by
  unfold run_conversion2
  rw [h1, h2, h3, hpc]
  simp

lemma run_conversion3_parse_count (env : Env) (n : Int)
    (h1 : env.convertExit = 0) (h2 : env.ppmExists = true)
    (h3 : env.ilbmExit = 0)
    (hpc : parseColorCount env.ilbmStderr = .count n) :
    run_conversion3 env =
      if 128 ≤ n then
        if env.ilbm2Exit = 0 then
          tailSteps3 [.convert, .ppmtoilbm, .reduce, .ppmtoilbm2] env
        else ⟨[.convert, .ppmtoilbm, .reduce, .ppmtoilbm2], [.ilbm2Error], .aborted⟩
      else tailSteps3 [.convert, .ppmtoilbm] env := by
  unfold run_conversion3
  rw [h1, h2, h3, hpc]
  simp

lemma tailSteps2_cc1541_fail (pre : List Step) (env : Env)
    (hcc : env.cc1541Exit ≠ 0) :
    tailSteps2 pre env = ⟨pre ++ [.cc1541], [.cc1541Error], .aborted⟩ ∨
    tailSteps2 pre env = ⟨pre, [.iffMissing], .aborted⟩ := by
  unfold tailSteps2
  split_ifs <;> simp_all

lemma tailSteps3_cc1541_fail (pre : List Step) (env : Env)
    (hcc : env.cc1541Exit ≠ 0) :
    tailSteps3 pre env = ⟨pre ++ [.cc1541], [.cc1541Error], .aborted⟩ ∨
    tailSteps3 pre env = ⟨pre, [.iffMissing], .aborted⟩ := by
  unfold tailSteps3
  split_ifs <;> simp_all

lemma tailSteps3_petcat_fail (pre : List Step) (env : Env)
    (hpet : env.petcatExit ≠ 0) :
    tailSteps3 pre env =
      ⟨pre ++ [.cc1541, .writeBas, .petcat],
       (if env.d81Exists then ([] : List Msg) else [.d81Missing]) ++ [.loaderAddError],
       .completed⟩ ∨
    tailSteps3 pre env = ⟨pre ++ [.cc1541], [.cc1541Error], .aborted⟩ ∨
    tailSteps3 pre env = ⟨pre, [.iffMissing], .aborted⟩ := by
  unfold tailSteps3
  split_ifs <;> simp_all

/-! ## Claim C6 -/

lemma ppmExists_false_of_not_true (env : Env)
    (h : ¬ env.ppmExists = true) : env.ppmExists = false := by
  revert h
  cases env.ppmExists <;> simp

/-- C6: A nonzero exit status from any external tool is fatal for that
pipeline run: ImageMagick or the first `ppmtoilbm` failing aborts with only
the steps so far executed and the failure reported; the second `ppmtoilbm`
failing aborts right there; `cc1541` failing reports, aborts, and is the last
step of the trace; `petcat` failing (loader variant) reports and prevents the
PRG-adding step while returning control normally.  In every aborted case the
session loop itself is unaffected: it just consults the next reply. -/
theorem c6_nonzero_exit_is_fatal (env : Env) :
    (env.convertExit ≠ 0 →
       run_conversion2 env = ⟨[.convert], [.convertError], .aborted⟩ ∧
       run_conversion3 env = ⟨[.convert], [.convertError], .aborted⟩) ∧
    (env.convertExit = 0 → env.ppmExists = true → env.ilbmExit ≠ 0 →
       run_conversion2 env = ⟨[.convert, .ppmtoilbm], [.ilbmError], .aborted⟩ ∧
       run_conversion3 env = ⟨[.convert, .ppmtoilbm], [.ilbmError], .aborted⟩) ∧
    (env.ilbm2Exit ≠ 0 → Step.ppmtoilbm2 ∈ (run_conversion2 env).steps →
       run_conversion2 env =
         ⟨[.convert, .ppmtoilbm, .reduce, .ppmtoilbm2], [.ilbm2Error], .aborted⟩) ∧
    (env.ilbm2Exit ≠ 0 → Step.ppmtoilbm2 ∈ (run_conversion3 env).steps →
       run_conversion3 env =
         ⟨[.convert, .ppmtoilbm, .reduce, .ppmtoilbm2], [.ilbm2Error], .aborted⟩) ∧
    (env.cc1541Exit ≠ 0 → Step.cc1541 ∈ (run_conversion2 env).steps →
       (run_conversion2 env).outcome = .aborted ∧
       Msg.cc1541Error ∈ (run_conversion2 env).msgs ∧
       (run_conversion2 env).steps.getLast? = some .cc1541) ∧
    (env.cc1541Exit ≠ 0 → Step.cc1541 ∈ (run_conversion3 env).steps →
       (run_conversion3 env).outcome = .aborted ∧
       Msg.cc1541Error ∈ (run_conversion3 env).msgs ∧
       (run_conversion3 env).steps.getLast? = some .cc1541) ∧
    (env.petcatExit ≠ 0 → Step.petcat ∈ (run_conversion3 env).steps →
       Step.cc1541Add ∉ (run_conversion3 env).steps ∧
       Msg.loaderAddError ∈ (run_conversion3 env).msgs ∧
       (run_conversion3 env).outcome = .completed) ∧
    (∀ (run : Env → RunResult) (reply : List Char)
       (rest : List (Env × List Char)),
       (run env).outcome = .aborted →
       sessionLoop run ((env, reply) :: rest) =
         if loopContinues reply then
           ((sessionLoop run rest).1 + 1, (sessionLoop run rest).2)
         else (1, .userQuit)) := by
  refine ⟨?_, ?_, ?_, ?_, ?_, ?_, ?_, ?_⟩
  · intro h
    exact ⟨run_conversion2_convert_fail env h, run_conversion3_convert_fail env h⟩
  · intro h1 h2 h3
    exact ⟨run_conversion2_ilbm_fail env h1 h2 h3,
           run_conversion3_ilbm_fail env h1 h2 h3⟩
  · intro hi2 hmem
    by_cases h1 : env.convertExit = 0
    case neg =>
      rw [run_conversion2_convert_fail env h1] at hmem
      exact absurd hmem (by decide)
    by_cases h2 : env.ppmExists = true
    case neg =>
      rw [run_conversion2_ppm_missing env h1 (ppmExists_false_of_not_true env h2)] at hmem
      exact absurd hmem (by decide)
    by_cases h3 : env.ilbmExit = 0
    case neg =>
      rw [run_conversion2_ilbm_fail env h1 h2 h3] at hmem
      exact absurd hmem (by decide)
    rcases hpc : parseColorCount env.ilbmStderr with _ | _ | n
    · rw [run_conversion2_parse_noMarker env h1 h2 h3 hpc] at hmem
      rw [mem_tailSteps2_iff _ (by decide)] at hmem
      exact absurd hmem (by decide)
    · rw [run_conversion2_parse_raised env h1 h2 h3 hpc] at hmem
      exact absurd hmem (by decide)
    · rw [run_conversion2_parse_count env n h1 h2 h3 hpc] at hmem ⊢
      by_cases h128 : 128 ≤ n
      · rw [if_pos h128] at hmem ⊢
        rw [if_neg hi2] at hmem ⊢
      · rw [if_neg h128] at hmem
        rw [mem_tailSteps2_iff _ (by decide)] at hmem
        exact absurd hmem (by decide)
  · intro hi2 hmem
    by_cases h1 : env.convertExit = 0
    case neg =>
      rw [run_conversion3_convert_fail env h1] at hmem
      exact absurd hmem (by decide)
    by_cases h2 : env.ppmExists = true
    case neg =>
      rw [run_conversion3_ppm_missing env h1 (ppmExists_false_of_not_true env h2)] at hmem
      exact absurd hmem (by decide)
    by_cases h3 : env.ilbmExit = 0
    case neg =>
      rw [run_conversion3_ilbm_fail env h1 h2 h3] at hmem
      exact absurd hmem (by decide)
    rcases hpc : parseColorCount env.ilbmStderr with _ | _ | n
    · rw [run_conversion3_parse_noMarker env h1 h2 h3 hpc] at hmem
      rw [mem_tailSteps3_iff _ (by decide) (by decide) (by decide) (by decide)] at hmem
      exact absurd hmem (by decide)
    · rw [run_conversion3_parse_raised env h1 h2 h3 hpc] at hmem
      exact absurd hmem (by decide)
    · rw [run_conversion3_parse_count env n h1 h2 h3 hpc] at hmem ⊢
      by_cases h128 : 128 ≤ n
      · rw [if_pos h128] at hmem ⊢
        rw [if_neg hi2] at hmem ⊢
      · rw [if_neg h128] at hmem
        rw [mem_tailSteps3_iff _ (by decide) (by decide) (by decide) (by decide)] at hmem
        exact absurd hmem (by decide)
  · intro hcc hmem
    by_cases h1 : env.convertExit = 0
    case neg =>
      rw [run_conversion2_convert_fail env h1] at hmem
      exact absurd hmem (by decide)
    by_cases h2 : env.ppmExists = true
    case neg =>
      rw [run_conversion2_ppm_missing env h1 (ppmExists_false_of_not_true env h2)] at hmem
      exact absurd hmem (by decide)
    by_cases h3 : env.ilbmExit = 0
    case neg =>
      rw [run_conversion2_ilbm_fail env h1 h2 h3] at hmem
      exact absurd hmem (by decide)
    rcases hpc : parseColorCount env.ilbmStderr with _ | _ | n
    · rw [run_conversion2_parse_noMarker env h1 h2 h3 hpc] at hmem ⊢
      rcases tailSteps2_cc1541_fail [.convert, .ppmtoilbm] env hcc with he | he
      · rw [he] at hmem ⊢
        exact ⟨rfl, by decide, by decide⟩
      · rw [he] at hmem
        exact absurd hmem (by decide)
    · rw [run_conversion2_parse_raised env h1 h2 h3 hpc] at hmem
      exact absurd hmem (by decide)
    · rw [run_conversion2_parse_count env n h1 h2 h3 hpc] at hmem ⊢
      by_cases h128 : 128 ≤ n
      · rw [if_pos h128] at hmem ⊢
        by_cases hil : env.ilbm2Exit = 0
        · rw [if_pos hil] at hmem ⊢
          rcases tailSteps2_cc1541_fail
              [.convert, .ppmtoilbm, .reduce, .ppmtoilbm2] env hcc with he | he
          · rw [he] at hmem ⊢
            exact ⟨rfl, by decide, by decide⟩
          · rw [he] at hmem
            exact absurd hmem (by decide)
        · rw [if_neg hil] at hmem
          exact absurd hmem (by decide)
      · rw [if_neg h128] at hmem ⊢
        rcases tailSteps2_cc1541_fail [.convert, .ppmtoilbm] env hcc with he | he
        · rw [he] at hmem ⊢
          exact ⟨rfl, by decide, by decide⟩
        · rw [he] at hmem
          exact absurd hmem (by decide)
  · intro hcc hmem
    by_cases h1 : env.convertExit = 0
    case neg =>
      rw [run_conversion3_convert_fail env h1] at hmem
      exact absurd hmem (by decide)
    by_cases h2 : env.ppmExists = true
    case neg =>
      rw [run_conversion3_ppm_missing env h1 (ppmExists_false_of_not_true env h2)] at hmem
      exact absurd hmem (by decide)
    by_cases h3 : env.ilbmExit = 0
    case neg =>
      rw [run_conversion3_ilbm_fail env h1 h2 h3] at hmem
      exact absurd hmem (by decide)
    rcases hpc : parseColorCount env.ilbmStderr with _ | _ | n
    · rw [run_conversion3_parse_noMarker env h1 h2 h3 hpc] at hmem ⊢
      rcases tailSteps3_cc1541_fail [.convert, .ppmtoilbm] env hcc with he | he
      · rw [he] at hmem ⊢
        exact ⟨rfl, by decide, by decide⟩
      · rw [he] at hmem
        exact absurd hmem (by decide)
    · rw [run_conversion3_parse_raised env h1 h2 h3 hpc] at hmem
      exact absurd hmem (by decide)
    · rw [run_conversion3_parse_count env n h1 h2 h3 hpc] at hmem ⊢
      by_cases h128 : 128 ≤ n
      · rw [if_pos h128] at hmem ⊢
        by_cases hil : env.ilbm2Exit = 0
        · rw [if_pos hil] at hmem ⊢
          rcases tailSteps3_cc1541_fail
              [.convert, .ppmtoilbm, .reduce, .ppmtoilbm2] env hcc with he | he
          · rw [he] at hmem ⊢
            exact ⟨rfl, by decide, by decide⟩
          · rw [he] at hmem
            exact absurd hmem (by decide)
        · rw [if_neg hil] at hmem
          exact absurd hmem (by decide)
      · rw [if_neg h128] at hmem ⊢
        rcases tailSteps3_cc1541_fail [.convert, .ppmtoilbm] env hcc with he | he
        · rw [he] at hmem ⊢
          exact ⟨rfl, by decide, by decide⟩
        · rw [he] at hmem
          exact absurd hmem (by decide)
  · intro hpet hmem
    by_cases h1 : env.convertExit = 0
    case neg =>
      rw [run_conversion3_convert_fail env h1] at hmem
      exact absurd hmem (by decide)
    by_cases h2 : env.ppmExists = true
    case neg =>
      rw [run_conversion3_ppm_missing env h1 (ppmExists_false_of_not_true env h2)] at hmem
      exact absurd hmem (by decide)
    by_cases h3 : env.ilbmExit = 0
    case neg =>
      rw [run_conversion3_ilbm_fail env h1 h2 h3] at hmem
      exact absurd hmem (by decide)
    rcases hpc : parseColorCount env.ilbmStderr with _ | _ | n
    · rw [run_conversion3_parse_noMarker env h1 h2 h3 hpc] at hmem ⊢
      rcases tailSteps3_petcat_fail [.convert, .ppmtoilbm] env hpet with he | he | he
      · rw [he] at hmem ⊢
        refine ⟨by simp, ?_, rfl⟩
        simp
      · rw [he] at hmem
        exact absurd hmem (by decide)
      · rw [he] at hmem
        exact absurd hmem (by decide)
    · rw [run_conversion3_parse_raised env h1 h2 h3 hpc] at hmem
      exact absurd hmem (by decide)
    · rw [run_conversion3_parse_count env n h1 h2 h3 hpc] at hmem ⊢
      by_cases h128 : 128 ≤ n
      · rw [if_pos h128] at hmem ⊢
        by_cases hil : env.ilbm2Exit = 0
        · rw [if_pos hil] at hmem ⊢
          rcases tailSteps3_petcat_fail
              [.convert, .ppmtoilbm, .reduce, .ppmtoilbm2] env hpet with he | he | he
          · rw [he] at hmem ⊢
            refine ⟨by simp, ?_, rfl⟩
            simp
          · rw [he] at hmem
            exact absurd hmem (by decide)
          · rw [he] at hmem
            exact absurd hmem (by decide)
        · rw [if_neg hil] at hmem
          exact absurd hmem (by decide)
      · rw [if_neg h128] at hmem ⊢
        rcases tailSteps3_petcat_fail [.convert, .ppmtoilbm] env hpet with he | he | he
        · rw [he] at hmem ⊢
          refine ⟨by simp, ?_, rfl⟩
          simp
        · rw [he] at hmem
          exact absurd hmem (by decide)
        · rw [he] at hmem
          exact absurd hmem (by decide)
  · intro run reply rest hab
    have hnc : (run env).outcome ≠ Outcome.crashed := by
      rw [hab]
      decide
    show (if (run env).outcome = Outcome.crashed then ((1 : Nat), SessionEnd.crashed)
          else if loopContinues reply then
            ((sessionLoop run rest).1 + 1, (sessionLoop run rest).2)
          else (1, SessionEnd.userQuit)) =
        if loopContinues reply then
          ((sessionLoop run rest).1 + 1, (sessionLoop run rest).2)
        else (1, SessionEnd.userQuit)
    rw [if_neg hnc]

/-- Witness for C6: with `cc1541` exiting nonzero and all earlier steps
succeeding, the run aborts with `cc1541` reported and last in the trace. -/
theorem c6_witness :
    (run_conversion2 (⟨0, true, 0, [], 0, true, 1, true, 0, 0⟩ : Env)).outcome
        = .aborted ∧
    Msg.cc1541Error ∈
      (run_conversion2 (⟨0, true, 0, [], 0, true, 1, true, 0, 0⟩ : Env)).msgs ∧
    (run_conversion2 (⟨0, true, 0, [], 0, true, 1, true, 0, 0⟩ : Env)).steps.getLast?
        = some .cc1541 :=
  (c6_nonzero_exit_is_fatal
      (⟨0, true, 0, [], 0, true, 1, true, 0, 0⟩ : Env)).2.2.2.2.1
    (by decide) (by decide)

/-! ## Claim C7 -/

lemma tailSteps2_iffMissing (pre : List Step) (env : Env)
    (hmsg : Msg.iffMissing ∈ (tailSteps2 pre env).msgs) :
    tailSteps2 pre env = ⟨pre, [.iffMissing], .aborted⟩ := by
  unfold tailSteps2 at hmsg ⊢
  split_ifs at hmsg ⊢ <;> simp_all

lemma tailSteps3_iffMissing (pre : List Step) (env : Env)
    (hmsg : Msg.iffMissing ∈ (tailSteps3 pre env).msgs) :
    tailSteps3 pre env = ⟨pre, [.iffMissing], .aborted⟩ := by
  unfold tailSteps3 at hmsg ⊢
  split_ifs at hmsg ⊢ <;> simp_all

lemma tailSteps2_d81Missing (pre : List Step) (env : Env)
    (hmsg : Msg.d81Missing ∈ (tailSteps2 pre env).msgs) :
    tailSteps2 pre env = ⟨pre ++ [.cc1541], [.d81Missing], .completed⟩ := by
  unfold tailSteps2 at hmsg ⊢
  split_ifs at hmsg ⊢ <;> simp_all

lemma tailSteps3_d81Missing (pre : List Step) (env : Env)
    (hmsg : Msg.d81Missing ∈ (tailSteps3 pre env).msgs) :
    (tailSteps3 pre env).outcome = .completed ∧
    Step.writeBas ∈ (tailSteps3 pre env).steps ∧
    Step.petcat ∈ (tailSteps3 pre env).steps := by
  unfold tailSteps3 at hmsg ⊢
  split_ifs at hmsg ⊢ <;> simp_all

/-- Counterexample to C7 as stated: in the loader variant, with every tool
succeeding but the D81 file found missing by the existence check, the run
reports the missing D81 and nevertheless executes the BASIC loader
generation, the `petcat` tokenization and the PRG-adding step — the
existence check does not abort. -/
theorem c7_counterexample :
    Msg.d81Missing ∈
      (run_conversion3 (⟨0, true, 0, [], 0, true, 0, false, 0, 0⟩ : Env)).msgs ∧
    Step.writeBas ∈
      (run_conversion3 (⟨0, true, 0, [], 0, true, 0, false, 0, 0⟩ : Env)).steps ∧
    Step.petcat ∈
      (run_conversion3 (⟨0, true, 0, [], 0, true, 0, false, 0, 0⟩ : Env)).steps ∧
    Step.cc1541Add ∈
      (run_conversion3 (⟨0, true, 0, [], 0, true, 0, false, 0, 0⟩ : Env)).steps ∧
    (run_conversion3 (⟨0, true, 0, [], 0, true, 0, false, 0, 0⟩ : Env)).outcome
      = .completed := by
  decide

/-- C7 (amended): The explicit existence checks behave asymmetrically:
a missing PPM file aborts the run immediately after the ImageMagick step,
and a missing IFF file is reported and aborts with no later pipeline step
(in particular neither `cc1541` nor, in the loader variant, any loader
step runs).  The missing-D81 check, however, only reports: in the basic
variant it is the end of the run anyway (the trace ends at `cc1541` and the
run completes), and in the loader variant the BASIC loader generation and
`petcat` steps still run afterwards. -/
theorem c7_missing_output_file_checks (env : Env) :
    (env.convertExit = 0 → env.ppmExists = false →
       run_conversion2 env = ⟨[.convert], [.ppmMissing], .aborted⟩ ∧
       run_conversion3 env = ⟨[.convert], [.ppmMissing], .aborted⟩) ∧
    (Msg.iffMissing ∈ (run_conversion2 env).msgs →
       (run_conversion2 env).outcome = .aborted ∧
       Step.cc1541 ∉ (run_conversion2 env).steps) ∧
    (Msg.iffMissing ∈ (run_conversion3 env).msgs →
       (run_conversion3 env).outcome = .aborted ∧
       Step.cc1541 ∉ (run_conversion3 env).steps ∧
       Step.writeBas ∉ (run_conversion3 env).steps ∧
       Step.petcat ∉ (run_conversion3 env).steps ∧
       Step.cc1541Add ∉ (run_conversion3 env).steps) ∧
    (Msg.d81Missing ∈ (run_conversion2 env).msgs →
       (run_conversion2 env).outcome = .completed ∧
       (run_conversion2 env).steps.getLast? = some .cc1541) ∧
    (Msg.d81Missing ∈ (run_conversion3 env).msgs →
       (run_conversion3 env).outcome = .completed ∧
       Step.writeBas ∈ (run_conversion3 env).steps ∧
       Step.petcat ∈ (run_conversion3 env).steps) := by
  refine ⟨?_, ?_, ?_, ?_, ?_⟩
  · intro h1 h2
    exact ⟨run_conversion2_ppm_missing env h1 h2,
           run_conversion3_ppm_missing env h1 h2⟩
  · intro hmsg
    by_cases h1 : env.convertExit = 0
    case neg =>
      rw [run_conversion2_convert_fail env h1] at hmsg
      exact absurd hmsg (by decide)
    by_cases h2 : env.ppmExists = true
    case neg =>
      rw [run_conversion2_ppm_missing env h1 (ppmExists_false_of_not_true env h2)] at hmsg
      exact absurd hmsg (by decide)
    by_cases h3 : env.ilbmExit = 0
    case neg =>
      rw [run_conversion2_ilbm_fail env h1 h2 h3] at hmsg
      exact absurd hmsg (by decide)
    rcases hpc : parseColorCount env.ilbmStderr with _ | _ | n
    · rw [run_conversion2_parse_noMarker env h1 h2 h3 hpc] at hmsg ⊢
      rw [tailSteps2_iffMissing _ env hmsg]
      exact ⟨rfl, by decide⟩
    · rw [run_conversion2_parse_raised env h1 h2 h3 hpc] at hmsg
      exact absurd hmsg (by decide)
    · rw [run_conversion2_parse_count env n h1 h2 h3 hpc] at hmsg ⊢
      by_cases h128 : 128 ≤ n
      · rw [if_pos h128] at hmsg ⊢
        by_cases hil : env.ilbm2Exit = 0
        · rw [if_pos hil] at hmsg ⊢
          rw [tailSteps2_iffMissing _ env hmsg]
          exact ⟨rfl, by decide⟩
        · rw [if_neg hil] at hmsg
          exact absurd hmsg (by decide)
      · rw [if_neg h128] at hmsg ⊢
        rw [tailSteps2_iffMissing _ env hmsg]
        exact ⟨rfl, by decide⟩
  · intro hmsg
    by_cases h1 : env.convertExit = 0
    case neg =>
      rw [run_conversion3_convert_fail env h1] at hmsg
      exact absurd hmsg (by decide)
    by_cases h2 : env.ppmExists = true
    case neg =>
      rw [run_conversion3_ppm_missing env h1 (ppmExists_false_of_not_true env h2)] at hmsg
      exact absurd hmsg (by decide)
    by_cases h3 : env.ilbmExit = 0
    case neg =>
      rw [run_conversion3_ilbm_fail env h1 h2 h3] at hmsg
      exact absurd hmsg (by decide)
    rcases hpc : parseColorCount env.ilbmStderr with _ | _ | n
    · rw [run_conversion3_parse_noMarker env h1 h2 h3 hpc] at hmsg ⊢
      rw [tailSteps3_iffMissing _ env hmsg]
      exact ⟨rfl, by decide, by decide, by decide, by decide⟩
    · rw [run_conversion3_parse_raised env h1 h2 h3 hpc] at hmsg
      exact absurd hmsg (by decide)
    · rw [run_conversion3_parse_count env n h1 h2 h3 hpc] at hmsg ⊢
      by_cases h128 : 128 ≤ n
      · rw [if_pos h128] at hmsg ⊢
        by_cases hil : env.ilbm2Exit = 0
        · rw [if_pos hil] at hmsg ⊢
          rw [tailSteps3_iffMissing _ env hmsg]
          exact ⟨rfl, by decide, by decide, by decide, by decide⟩
        · rw [if_neg hil] at hmsg
          exact absurd hmsg (by decide)
      · rw [if_neg h128] at hmsg ⊢
        rw [tailSteps3_iffMissing _ env hmsg]
        exact ⟨rfl, by decide, by decide, by decide, by decide⟩
  · intro hmsg
    by_cases h1 : env.convertExit = 0
    case neg =>
      rw [run_conversion2_convert_fail env h1] at hmsg
      exact absurd hmsg (by decide)
    by_cases h2 : env.ppmExists = true
    case neg =>
      rw [run_conversion2_ppm_missing env h1 (ppmExists_false_of_not_true env h2)] at hmsg
      exact absurd hmsg (by decide)
    by_cases h3 : env.ilbmExit = 0
    case neg =>
      rw [run_conversion2_ilbm_fail env h1 h2 h3] at hmsg
      exact absurd hmsg (by decide)
    rcases hpc : parseColorCount env.ilbmStderr with _ | _ | n
    · rw [run_conversion2_parse_noMarker env h1 h2 h3 hpc] at hmsg ⊢
      rw [tailSteps2_d81Missing _ env hmsg]
      exact ⟨rfl, by decide⟩
    · rw [run_conversion2_parse_raised env h1 h2 h3 hpc] at hmsg
      exact absurd hmsg (by decide)
    · rw [run_conversion2_parse_count env n h1 h2 h3 hpc] at hmsg ⊢
      by_cases h128 : 128 ≤ n
      · rw [if_pos h128] at hmsg ⊢
        by_cases hil : env.ilbm2Exit = 0
        · rw [if_pos hil] at hmsg ⊢
          rw [tailSteps2_d81Missing _ env hmsg]
          exact ⟨rfl, by decide⟩
        · rw [if_neg hil] at hmsg
          exact absurd hmsg (by decide)
      · rw [if_neg h128] at hmsg ⊢
        rw [tailSteps2_d81Missing _ env hmsg]
        exact ⟨rfl, by decide⟩
  · intro hmsg
    by_cases h1 : env.convertExit = 0
    case neg =>
      rw [run_conversion3_convert_fail env h1] at hmsg
      exact absurd hmsg (by decide)
    by_cases h2 : env.ppmExists = true
    case neg =>
      rw [run_conversion3_ppm_missing env h1 (ppmExists_false_of_not_true env h2)] at hmsg
      exact absurd hmsg (by decide)
    by_cases h3 : env.ilbmExit = 0
    case neg =>
      rw [run_conversion3_ilbm_fail env h1 h2 h3] at hmsg
      exact absurd hmsg (by decide)
    rcases hpc : parseColorCount env.ilbmStderr with _ | _ | n
    · rw [run_conversion3_parse_noMarker env h1 h2 h3 hpc] at hmsg ⊢
      exact tailSteps3_d81Missing _ env hmsg
    · rw [run_conversion3_parse_raised env h1 h2 h3 hpc] at hmsg
      exact absurd hmsg (by decide)
    · rw [run_conversion3_parse_count env n h1 h2 h3 hpc] at hmsg ⊢
      by_cases h128 : 128 ≤ n
      · rw [if_pos h128] at hmsg ⊢
        by_cases hil : env.ilbm2Exit = 0
        · rw [if_pos hil] at hmsg ⊢
          exact tailSteps3_d81Missing _ env hmsg
        · rw [if_neg hil] at hmsg
          exact absurd hmsg (by decide)
      · rw [if_neg h128] at hmsg ⊢
        exact tailSteps3_d81Missing _ env hmsg

/-- Witness for C7 (amended) at a concrete environment with a missing D81
in the loader variant. -/
theorem c7_witness :
    (run_conversion3 (⟨0, true, 0, [], 0, true, 0, false, 0, 0⟩ : Env)).outcome
        = .completed ∧
    Step.writeBas ∈
      (run_conversion3 (⟨0, true, 0, [], 0, true, 0, false, 0, 0⟩ : Env)).steps ∧
    Step.petcat ∈
      (run_conversion3 (⟨0, true, 0, [], 0, true, 0, false, 0, 0⟩ : Env)).steps :=
  (c7_missing_output_file_checks
      (⟨0, true, 0, [], 0, true, 0, false, 0, 0⟩ : Env)).2.2.2.2 (by decide)

/-! ## Claim C8 -/

lemma lastIndexOf_eq_none (c : Char) (l : List Char) (h : c ∉ l) :
    lastIndexOf c l = none := by
  induction l with
  | nil => rfl
  | cons a as ih =>
      have ha : ¬ a = c := by
        rintro rfl
        exact h (List.mem_cons_self a as)
      have has : c ∉ as := fun hm => h (List.mem_cons_of_mem a hm)
      unfold lastIndexOf
      rw [ih has]
      simp [ha]

lemma lastIndexOf_append_cons (c : Char) (xs ys : List Char) (h : c ∉ ys) :
    lastIndexOf c (xs ++ c :: ys) = some xs.length := by
  induction xs with
  | nil =>
      rw [List.nil_append]
      unfold lastIndexOf
      rw [lastIndexOf_eq_none c ys h]
      simp
  | cons x xs ih =>
      rw [List.cons_append]
      unfold lastIndexOf
      rw [ih]
      simp

/-- C8: The filename deriver: for an input written `stem ++ "." ++ ext`
with a dot-free, separator-free extension and a stem whose basename is not
all dots, `os.path.splitext` strips the final extension, and the scripts
append the fixed target extensions to the base name: `.ppm`, `.iff` and, in
the loader variant, `.bas` / `.prg`.  The derivation is a pure function of
the input string. -/
theorem c8_filename_deriver (stem ext : List Char)
    (hdot : '.' ∉ ext) (hsep : '/' ∉ ext) (hsep2 : '/' ∉ stem)
    (hnd : ∃ c ∈ stem, c ≠ '.') :
    pySplitextBase (stem ++ '.' :: ext) = stem ∧
    output_ppm (stem ++ '.' :: ext) = stem ++ ".ppm".toList ∧
    output_iff (stem ++ '.' :: ext) = stem ++ ".iff".toList ∧
    loader_bas (stem ++ '.' :: ext) = stem ++ ".bas".toList ∧
    loader_prg (stem ++ '.' :: ext) = stem ++ ".prg".toList := by
  have hsl : lastIndexOf '/' (stem ++ '.' :: ext) = none := by
    apply lastIndexOf_eq_none
    intro hm
    rcases List.mem_append.1 hm with hm | hm
    · exact hsep2 hm
    · rcases List.mem_cons.1 hm with he | hm
      · exact absurd he (by decide)
      · exact hsep hm
  have hdl : lastIndexOf '.' (stem ++ '.' :: ext) = some stem.length :=
    lastIndexOf_append_cons '.' stem ext hdot
  have hbase : pySplitextBase (stem ++ '.' :: ext) = stem := by
    unfold pySplitextBase
    rw [hsl, hdl]
    show (if 0 ≤ stem.length ∧
            (((stem ++ '.' :: ext).drop 0).take (stem.length - 0)).any
              (fun c => c ≠ '.') then
            (stem ++ '.' :: ext).take stem.length
          else stem ++ '.' :: ext) = stem
    have hany : (((stem ++ '.' :: ext).drop 0).take (stem.length - 0)).any
        (fun c => c ≠ '.') = true := by
      rw [List.drop_zero, Nat.sub_zero, List.take_left]
      rcases hnd with ⟨c, hc, hcne⟩
      exact List.any_eq_true.2 ⟨c, hc, by simp [hcne]⟩
    rw [if_pos ⟨Nat.zero_le _, hany⟩]
    exact List.take_left _ _
  refine ⟨hbase, ?_, ?_, ?_, ?_⟩ <;>
    simp [output_ppm, output_iff, loader_bas, loader_prg, hbase]

/-- Witness for C8 at `"photo.jpg"`: the derived names are `photo.ppm`,
`photo.iff`, `photo.bas`, `photo.prg`. -/
theorem c8_witness :
    output_ppm "photo.jpg".toList = "photo.ppm".toList ∧
    output_iff "photo.jpg".toList = "photo.iff".toList ∧
    loader_bas "photo.jpg".toList = "photo.bas".toList ∧
    loader_prg "photo.jpg".toList = "photo.prg".toList := by
  have e : ("photo.jpg".toList : List Char) =
      "photo".toList ++ '.' :: "jpg".toList := by decide
  have h := c8_filename_deriver "photo".toList "jpg".toList
    (by decide) (by decide) (by decide) ⟨'p', by decide, by decide⟩
  refine ⟨?_, ?_, ?_, ?_⟩ <;> rw [e]
  · exact h.2.1.trans (by decide)
  · exact h.2.2.1.trans (by decide)
  · exact h.2.2.2.1.trans (by decide)
  · exact h.2.2.2.2.trans (by decide)

/-! ## Claim C9 -/

/-- C9: The session loop prompts after each run and iterates again
exactly when the reply, stripped of surrounding whitespace and lowercased,
is the affirmative answer `"y"` of the `(Y/N)` prompt; any other reply ends
the loop.  Whenever a run returns (does not crash), the loop's continuation
is decided solely by this test on the next reply. -/
theorem c9_session_loop_condition :
    (∀ reply : List Char,
       loopContinues reply = true ↔ pyLower (pyStripWs reply) = ['y']) ∧
    (∀ (run : Env → RunResult) (env : Env) (reply : List Char)
       (rest : List (Env × List Char)),
       (run env).outcome ≠ .crashed →
       sessionLoop run ((env, reply) :: rest) =
         if loopContinues reply then
           ((sessionLoop run rest).1 + 1, (sessionLoop run rest).2)
         else (1, .userQuit)) := by
  constructor
  · intro reply
    simp [loopContinues]
  · intro run env reply rest hnc
    show (if (run env).outcome = Outcome.crashed then ((1 : Nat), SessionEnd.crashed)
          else if loopContinues reply then
            ((sessionLoop run rest).1 + 1, (sessionLoop run rest).2)
          else (1, SessionEnd.userQuit)) =
        if loopContinues reply then
          ((sessionLoop run rest).1 + 1, (sessionLoop run rest).2)
        else (1, SessionEnd.userQuit)
    rw [if_neg hnc]

/-- Witness for C9: the reply `" Y "` continues the loop and `"n"` ends it,
at a concrete environment. -/
theorem c9_witness :
    (loopContinues " Y ".toList = true ↔
       pyLower (pyStripWs " Y ".toList) = ['y']) ∧
    sessionLoop run_conversion2 [(envOk [], "n".toList)] = (1, .userQuit) :=
  ⟨c9_session_loop_condition.1 " Y ".toList,
   (c9_session_loop_condition.2 run_conversion2 (envOk []) "n".toList []
      (by decide)).trans (by decide)⟩

/-! ## Claim C10 -/

/-- C10: If the diagnostic text contains the marker `"colors found"`
(first occurrence at index `i`) but either no whitespace-separated token
precedes it or the preceding token does not parse as an integer, the
color-count extraction raises (`IndexError` / `ValueError`); the exception
is not caught by the handlers (which catch only external-process failures),
so `run_conversion` crashes in both variants and the whole session loop
terminates abnormally instead of skipping the reduction or reporting a
pipeline failure. -/
theorem c10_unparseable_count_crashes (s : List Char) (i : Nat) (env : Env)
    (reply : List Char) (rest : List (Env × List Char))
    (hocc : occursAt markerChars s i = true)
    (hmin : ∀ j, j < i → occursAt markerChars s j = false)
    (hbad : (pySplitWs (s.take i)).getLast? = none ∨
            ∃ tok, (pySplitWs (s.take i)).getLast? = some tok ∧ pyInt? tok = none)
    (henv : env.ilbmStderr = s) (hc : env.convertExit = 0)
    (hp : env.ppmExists = true) (hi : env.ilbmExit = 0) :
    parseColorCount s = .raised ∧
    (run_conversion2 env).outcome = .crashed ∧
    (run_conversion3 env).outcome = .crashed ∧
    sessionLoop run_conversion2 ((env, reply) :: rest) = (1, .crashed) ∧
    sessionLoop run_conversion3 ((env, reply) :: rest) = (1, .crashed) := by
  have hfind : findFirst? markerChars s = some i :=
    findFirst?_eq_some_of _ _ _ hocc hmin
  have hparse : parseColorCount s = .raised := by
    unfold parseColorCount
    simp only [hfind]
    rcases hbad with hb | ⟨tok, htok, hint⟩
    · rw [hb]
    · simp only [htok, hint]
  have hparse' : parseColorCount env.ilbmStderr = .raised := by
    rw [henv, hparse]
  have h2 : run_conversion2 env = ⟨[.convert, .ppmtoilbm], [], .crashed⟩ :=
    run_conversion2_parse_raised env hc hp hi hparse'
  have h3 : run_conversion3 env = ⟨[.convert, .ppmtoilbm], [], .crashed⟩ :=
    run_conversion3_parse_raised env hc hp hi hparse'
  refine ⟨hparse, by rw [h2], by rw [h3], ?_, ?_⟩
  · show (if (run_conversion2 env).outcome = Outcome.crashed
          then ((1 : Nat), SessionEnd.crashed)
          else if loopContinues reply then
            ((sessionLoop run_conversion2 rest).1 + 1,
             (sessionLoop run_conversion2 rest).2)
          else (1, SessionEnd.userQuit)) = (1, SessionEnd.crashed)
    rw [if_pos (by rw [h2])]
  · show (if (run_conversion3 env).outcome = Outcome.crashed
          then ((1 : Nat), SessionEnd.crashed)
          else if loopContinues reply then
            ((sessionLoop run_conversion3 rest).1 + 1,
             (sessionLoop run_conversion3 rest).2)
          else (1, SessionEnd.userQuit)) = (1, SessionEnd.crashed)
    rw [if_pos (by rw [h3])]

/-- Witness for C10: diagnostic text that is exactly the marker has no
preceding token (`IndexError`), and the whole session crashes. -/
theorem c10_witness :
    parseColorCount "colors found".toList = .raised ∧
    (run_conversion2 (⟨0, true, 0, "colors found".toList, 0, true, 0, true, 0, 0⟩ : Env)).outcome
      = .crashed ∧
    (run_conversion3 (⟨0, true, 0, "colors found".toList, 0, true, 0, true, 0, 0⟩ : Env)).outcome
      = .crashed ∧
    sessionLoop run_conversion2
      [((⟨0, true, 0, "colors found".toList, 0, true, 0, true, 0, 0⟩ : Env), [])]
      = (1, .crashed) ∧
    sessionLoop run_conversion3
      [((⟨0, true, 0, "colors found".toList, 0, true, 0, true, 0, 0⟩ : Env), [])]
      = (1, .crashed) :=
  c10_unparseable_count_crashes "colors found".toList 0
    (⟨0, true, 0, "colors found".toList, 0, true, 0, true, 0, 0⟩ : Env) [] []
    (by decide) (by omega) (Or.inl (by decide)) rfl rfl rfl rfl
